import Mathlib

/-!
Verification development for the whatsapp-server repository.

The two core source files are embedded shallowly:
  * `src/bot/auth/secretManagerAuthState.js` — the debounced remote credential
    store and the session-state adapter (in-memory `keys` mirror, `get`/`set`,
    `getSecretValue`, `saveSecretValue`, `useSecretManagerAuthState`,
    `persistState`, `createDebounce`).
  * `src/bot/connection.js` — the connection lifecycle manager
    (`connectToWhatsApp`, the `connection.update` handler with the
    `pairingCodeRequested` flag, the close/reconnect branch).

JavaScript objects used as string-keyed maps are embedded as association
lists with insert-replacing-in-place and delete semantics; machine timers
are embedded as an explicit deadline in a small step machine; the Google
Secret Manager client is embedded as a versioned secret plus an injected
fault schedule (one optional gRPC status code per client call).
-/

namespace WhatsappServer

/-! ## In-memory keys mirror (`secretManagerAuthState.js`, lines 251-298)

The Baileys auth-state `keys` object is a plain JS object indexed by the
string `` category ++ "-" ++ id ``.  We embed it as an association list with
unique keys: assignment replaces the value in place, `delete` removes the
entry. -/

/-- The in-memory `keys` mirror: a JS object from composite string keys to
opaque signal-key records (value type `V`). -/
abbrev KeyStore (V : Type) := List (String × V)

/-- Reading `keys[k]` : the value at key `k`, or `none` for `undefined`. -/
def lookupKey {V : Type} : KeyStore V → String → Option V
  | [], _ => none
  | (k, v) :: rest, key => if k = key then some v else lookupKey rest key

/-- `keys[k] = v` : replace in place if the key exists, else append
(JS objects keep insertion order and have unique keys). -/
def insertKey {V : Type} : KeyStore V → String → V → KeyStore V
  | [], key, v => [(key, v)]
  | (k, w) :: rest, key, v =>
    if k = key then (k, v) :: rest else (k, w) :: insertKey rest key v

/-- `delete keys[k]` : remove the entry at key `k` (keys are unique, so
removing every occurrence is the same operation). -/
def eraseKey {V : Type} : KeyStore V → String → KeyStore V
  | [], _ => []
  | (k, w) :: rest, key =>
    if k = key then eraseKey rest key else (k, w) :: eraseKey rest key

/-- One `set` payload: the JS argument `data`, a map
`category → { id : value | null }`.  `none` stands for `null`/`undefined`. -/
abbrev SetData (V : Type) := List (String × List (String × Option V))

/-- `state.keys.get(type, ids)` (lines 264-270): fold over `ids`, copying
`keys[type ++ "-" ++ id]` into the result object when it is defined. -/
def keysGet {V : Type} (keys : KeyStore V) (type : String) (ids : List String) :
    KeyStore V :=
  ids.foldl (fun acc id =>
    match lookupKey keys (type ++ "-" ++ id) with
    | some v => insertKey acc id v
    | none => acc) []

/-- `state.keys.set(data)` (lines 285-297), the synchronous mirror mutation:
for each category and each id, a non-null value is upserted at the composite
key and a null value deletes the composite key.  (The debounced persist the
source schedules afterwards is modelled separately by the debounce machine.) -/
def keysSet {V : Type} (keys : KeyStore V) (data : SetData V) : KeyStore V :=
  data.foldl (fun ks catEntry =>
    catEntry.2.foldl (fun ks idVal =>
      match idVal.2 with
      | some v => insertKey ks (catEntry.1 ++ "-" ++ idVal.1) v
      | none => eraseKey ks (catEntry.1 ++ "-" ++ idVal.1)) ks) keys

/-! Specification-side view of a history of `set` calls: the flat list of
(composite key, optional value) write operations it performs, in order. -/

/-- The write operations of one category block of a `set` payload. -/
def entryOps {V : Type} (category : String) :
    List (String × Option V) → List (String × Option V)
  | [] => []
  | iv :: rest => (category ++ "-" ++ iv.1, iv.2) :: entryOps category rest

/-- The write operations of one `set` payload, in execution order. -/
def setOps {V : Type} : SetData V → List (String × Option V)
  | [] => []
  | c :: rest => entryOps c.1 c.2 ++ setOps rest

/-- The write operations of a whole history of `set` calls. -/
def allSetOps {V : Type} : List (SetData V) → List (String × Option V)
  | [] => []
  | d :: rest => setOps d ++ allSetOps rest

/-- Apply one write operation to the mirror. -/
def applyOp {V : Type} (ks : KeyStore V) (op : String × Option V) : KeyStore V :=
  match op.2 with
  | some v => insertKey ks op.1 v
  | none => eraseKey ks op.1

/-- The most recent operation on composite key `k` in a list of operations:
`none` if `k` was never written, otherwise `some` of the last value written
(`some none` meaning the last write was a deletion). -/
def lastWrite {V : Type} (k : String) : List (String × Option V) → Option (Option V)
  | [] => none
  | op :: rest =>
    match lastWrite k rest with
    | some r => some r
    | none => if op.1 = k then some op.2 else none

/-! ## Debounced persistence (`secretManagerAuthState.js`, lines 48, 71-83, 239-249)

`createDebounce(fn, delayMs)` keeps a single timer slot: every call clears the
pending timer and schedules `fn` `delayMs` later, so at most one timer is ever
pending.  In the auth state it is instantiated as
`persistStateDebounced = createDebounce(persistState, DEBOUNCE_DELAY_MS)` and
invoked (with no arguments) at the end of every `keys.set`; when the timer
fires, `persistState` serializes and saves the state *as it is at fire time*.

We embed the event loop as a step machine over absolute times in
milliseconds: the state holds the keys mirror, the deadline of the pending
timer (if any), and the list of blobs dispatched to the remote store so far
(each dispatched blob is the keys mirror at fire time). -/

/-- `DEBOUNCE_DELAY_MS` (line 48). -/
def DEBOUNCE_DELAY_MS : Nat := 3000

/-- State of the debounce machine: the in-memory mirror, the absolute
deadline of the single pending timer slot, and the blobs dispatched to the
store so far, in dispatch order. -/
structure DebounceState (V : Type) where
  keys : KeyStore V
  deadline : Option Nat
  writes : List (KeyStore V)
deriving DecidableEq

/-- The event loop runs the pending timer callback if its deadline has
passed by time `t`: the callback clears the timer slot and dispatches
`persistState` with the current state (`createDebounce`, lines 76-81). -/
def fireDueTimer {V : Type} (t : Nat) (s : DebounceState V) : DebounceState V :=
  match s.deadline with
  | some d =>
    if d ≤ t then { s with deadline := none, writes := s.writes ++ [s.keys] }
    else s
  | none => s

/-- One `keys.set(data)` call at absolute time `t`: any timer already due has
fired beforehand; the mirror is mutated synchronously; the trailing
`persistStateDebounced()` clears the pending timer and re-arms it for
`t + DEBOUNCE_DELAY_MS` (lines 285-297 together with lines 74-82). -/
def stepSetCall {V : Type} (s : DebounceState V) (call : Nat × SetData V) :
    DebounceState V :=
  let s1 := fireDueTimer call.1 s
  { keys := keysSet s1.keys call.2
    deadline := some (call.1 + DEBOUNCE_DELAY_MS)
    writes := s1.writes }

/-- Run a timed sequence of `keys.set` calls through the machine. -/
def runCalls {V : Type} (s : DebounceState V) (calls : List (Nat × SetData V)) :
    DebounceState V :=
  calls.foldl stepSetCall s

/-- Let the machine go quiescent: once the debounce window elapses with no
further call, the pending timer (if any) fires and dispatches the current
state.  Returns the complete list of dispatched blobs. -/
def flushPending {V : Type} (s : DebounceState V) : List (KeyStore V) :=
  match s.deadline with
  | some _ => s.writes ++ [s.keys]
  | none => s.writes

/-- `withinBurst t calls` : every call of `calls` lands strictly within the
debounce window of its predecessor (the predecessor of the head being a call
at time `t`). -/
def withinBurst {V : Type} : Nat → List (Nat × SetData V) → Bool
  | _, [] => true
  | t, c :: rest => decide (c.1 < t + DEBOUNCE_DELAY_MS) && withinBurst c.1 rest

/-- The time of the last call, with `t` as fallback for the empty list. -/
def lastCallTime {V : Type} : Nat → List (Nat × SetData V) → Nat
  | t, [] => t
  | _, c :: rest => lastCallTime c.1 rest

/-! ## Remote secret store (`secretManagerAuthState.js`, lines 38, 108-183, 213-249)

The Google Secret Manager client is embedded as a single named secret (the
code only ever touches one) plus an injected fault schedule: each client call
first consumes the next schedule entry; `some code` makes that call fail with
the given gRPC status code (permission, transport, ...), `none` lets the
store semantics decide.  The secret is an append-only version list; the
`latest` version is the last appended one. -/

/-- gRPC status code for NOT_FOUND (line 38). -/
def GRPC_NOT_FOUND : Nat := 5

/-- gRPC status code for ALREADY_EXISTS (returned by `createSecret` on an
existing secret). -/
def GRPC_ALREADY_EXISTS : Nat := 6

/-- The remote named secret: absent, or present with its ordered, append-only
version payloads. -/
inductive SecretState where
  | absent
  | present (versions : List String)
deriving DecidableEq

/-- The remote world: the secret plus the injected per-call fault schedule. -/
structure World where
  secret : SecretState
  faults : List (Option Nat)
deriving DecidableEq

/-- Consume the next fault-schedule entry (one per client call). -/
def nextFault (w : World) : Option Nat × World :=
  match w.faults with
  | [] => (none, w)
  | f :: rest => (f, { w with faults := rest })

/-- The `latest` version of a version list: the last appended payload. -/
def lastVersion : List String → Option String
  | [] => none
  | [v] => some v
  | _ :: v :: rest => lastVersion (v :: rest)

/-- `client.accessSecretVersion` on `.../versions/latest`: an injected fault
fails with its code; an absent secret (or one with no versions) fails with
NOT_FOUND; otherwise the latest payload is returned. -/
def accessSecretVersion (w : World) : Except Nat (Option String) × World :=
  match nextFault w with
  | (some c, w1) => (Except.error c, w1)
  | (none, w1) =>
    match w1.secret with
    | SecretState.absent => (Except.error GRPC_NOT_FOUND, w1)
    | SecretState.present vs =>
      match lastVersion vs with
      | some v => (Except.ok (some v), w1)
      | none => (Except.error GRPC_NOT_FOUND, w1)

/-- `client.addSecretVersion`: an injected fault fails with its code; an
absent secret fails with NOT_FOUND; otherwise the payload is appended as a
new version. -/
def addSecretVersion (w : World) (payload : String) : Except Nat Unit × World :=
  match nextFault w with
  | (some c, w1) => (Except.error c, w1)
  | (none, w1) =>
    match w1.secret with
    | SecretState.absent => (Except.error GRPC_NOT_FOUND, w1)
    | SecretState.present vs =>
      (Except.ok (), { w1 with secret := SecretState.present (vs ++ [payload]) })

/-- The replication policy passed to `client.createSecret`; the source always
passes `{ replication: { automatic: {} } }` (lines 170-174). -/
inductive Replication where
  | automatic
deriving DecidableEq

/-- `client.createSecret`: an injected fault fails with its code; an existing
secret fails with ALREADY_EXISTS; otherwise the secret is created empty. -/
def createSecret (w : World) (_repl : Replication) : Except Nat Unit × World :=
  match nextFault w with
  | (some c, w1) => (Except.error c, w1)
  | (none, w1) =>
    match w1.secret with
    | SecretState.absent => (Except.ok (), { w1 with secret := SecretState.present [] })
    | SecretState.present _ => (Except.error GRPC_ALREADY_EXISTS, w1)

/-- The remote-store calls a `saveSecretValue` run performs, in order. -/
inductive StoreOp where
  | addVersion (payload : String)
  | create (repl : Replication)
deriving DecidableEq

/-- `getSecretValue` (lines 108-128): access the latest version; an error
whose code is `GRPC_NOT_FOUND` is converted to the `null` sentinel, any other
error propagates (is re-thrown). -/
def getSecretValue (w : World) : Except Nat (Option String) × World :=
  match accessSecretVersion w with
  | (Except.ok v, w1) => (Except.ok v, w1)
  | (Except.error c, w1) =>
    if c = GRPC_NOT_FOUND then (Except.ok none, w1) else (Except.error c, w1)

/-- `saveSecretValue` (lines 151-183): add a new version; on any
non-NOT_FOUND error re-throw; on NOT_FOUND create the secret (automatic
replication) and retry the `addSecretVersion` exactly once, re-throwing any
error of the create or of the retried add.  The result also records the list
of client calls performed. -/
def saveSecretValue (w : World) (payload : String) :
    Except Nat Unit × World × List StoreOp :=
  match addSecretVersion w payload with
  | (Except.ok _, w1) => (Except.ok (), w1, [StoreOp.addVersion payload])
  | (Except.error c, w1) =>
    if c ≠ GRPC_NOT_FOUND then (Except.error c, w1, [StoreOp.addVersion payload])
    else
      match createSecret w1 Replication.automatic with
      | (Except.error ce, w2) =>
        (Except.error ce, w2, [StoreOp.addVersion payload, StoreOp.create Replication.automatic])
      | (Except.ok _, w2) =>
        match addSecretVersion w2 payload with
        | (r, w3) =>
          (r, w3, [StoreOp.addVersion payload, StoreOp.create Replication.automatic,
                   StoreOp.addVersion payload])

/-! ## Auth-state initialization and persistence
(`secretManagerAuthState.js`, lines 213-249, 301-312)

The Baileys pieces are external and appear as parameters: `initAuthCreds`
(the blank-credential constructor) as an opaque value `blank : C`, and the
`JSON.stringify`/`JSON.parse` with `BufferJSON.replacer`/`reviver` pair as an
opaque serializer `serializeBlob` and parser `reviveBlob`.  `reviveBlob`
returns the parsed `creds` together with the optional `keys` field (the
source applies `parsed.keys ?? {}`); `none` means `JSON.parse` threw. -/

/-- Errors escaping auth-state initialization: a gRPC error from the store,
or a `JSON.parse` failure. -/
inductive AuthError where
  | grpc (code : Nat)
  | parseFailure
deriving DecidableEq

/-- The `{ creds, keys }` pair held by the auth state after initialization. -/
structure AuthInit (C V : Type) where
  creds : C
  keys : KeyStore V
deriving DecidableEq

/-- `useSecretManagerAuthState` initialization (lines 217-231): load the raw
secret; a `null` (or empty-string, JS falsy) raw initializes blank creds and
empty keys; otherwise the blob is parsed and `keys` defaults to `{}` when the
parsed object has no `keys` field.  Store errors and parse errors propagate. -/
def useSecretManagerAuthState {C V : Type} (blank : C)
    (reviveBlob : String → Option (C × Option (KeyStore V))) (w : World) :
    Except AuthError (AuthInit C V) × World :=
  match getSecretValue w with
  | (Except.error c, w1) => (Except.error (AuthError.grpc c), w1)
  | (Except.ok raw, w1) =>
    match raw with
    | none => (Except.ok ⟨blank, []⟩, w1)
    | some s =>
      if s = "" then (Except.ok ⟨blank, []⟩, w1)
      else
        match reviveBlob s with
        | none => (Except.error AuthError.parseFailure, w1)
        | some p => (Except.ok ⟨p.1, p.2.getD []⟩, w1)

/-- `persistState` (lines 239-242): serialize the current `{ creds, keys }`
and save it via `saveSecretValue`. -/
def persistState {C V : Type} (serializeBlob : C → KeyStore V → String)
    (creds : C) (keys : KeyStore V) (w : World) :
    Except Nat Unit × World × List StoreOp :=
  saveSecretValue w (serializeBlob creds keys)

/-! ## Connection lifecycle (`connection.js`)

`connectToWhatsApp` (lines 103-368) validates `GCP_PROJECT_ID`, initializes
the auth state, builds a socket and registers a `connection.update` handler
closing over a per-socket mutable `pairingCodeRequested` flag (line 252,
initialized `false` on every invocation).  The handler (lines 277-363) runs
the pairing block first — with an early `return` when `PHONE_NUMBER` is
unset — and then the close/open branches.  Baileys externals
(`fetchLatestBaileysVersion`, `makeWASocket`, `requestPairingCode`) appear
only through their observable effects: the handler's emitted actions and the
outcome each event's `requestPairingCode` call would have. -/

/-- The `connection` field of a `connection.update` payload:
`'connecting' | 'open' | 'close'` (`opened` embeds the string `'open'`). -/
inductive ConnStatus where
  | connecting
  | opened
  | close
deriving DecidableEq

/-- One `connection.update` payload: the optional connection state, the
optional QR hint, and `lastDisconnect?.error?.output?.statusCode`. -/
structure ConnUpdate where
  connection : Option ConnStatus
  qr : Option String
  statusCode : Option Nat
deriving DecidableEq

/-- Outcome of the `sock.requestPairingCode(PHONE_NUMBER)` call, were it
issued while handling this event. -/
inductive PairingOutcome where
  | ok (code : String)
  | err
deriving DecidableEq

/-- One handler invocation's input: the update payload, the value of
`sock.authState.creds.registered` at that moment, and the pairing-call
outcome. -/
structure ConnEvent where
  update : ConnUpdate
  registered : Bool
  pairingOutcome : PairingOutcome
deriving DecidableEq

/-- Externally observable actions of one handler invocation. -/
inductive ConnAction where
  | requestPairing (phone : String)
  | scheduleReconnect (delayMs : Nat)
deriving DecidableEq

/-- `DisconnectReason.loggedOut` (Baileys) is the Boom status code 401. -/
def DisconnectReason_loggedOut : Nat := 401

/-- The reconnect delay of `setTimeout(connectToWhatsApp, 5_000)`
(line 351). -/
def RECONNECT_DELAY_MS : Nat := 5000

/-- Truthiness of an optional environment string (`undefined` and the empty
string are falsy in `!GCP_PROJECT_ID` / `!PHONE_NUMBER`). -/
def envTruthy : Option String → Bool
  | none => false
  | some s => decide (s ≠ "")

/-- The `shouldRequestPairing` condition (lines 286-289): connecting or a QR
hint, credentials not registered, and no pairing request yet this socket
lifetime. -/
def shouldRequestPairing (flag : Bool) (e : ConnEvent) : Bool :=
  (decide (e.update.connection = some ConnStatus.connecting) || e.update.qr.isSome)
    && !e.registered && !flag

/-- The close/open tail of the handler (lines 323-362): on `'close'`, a
logged-out status code (401) is terminal and schedules nothing, while any
other (or absent) status code appends exactly one
`scheduleReconnect RECONNECT_DELAY_MS`; `'open'` and partial updates only
log. -/
def closeOpenBranch (u : ConnUpdate) (flag : Bool) (acts : List ConnAction) :
    Bool × List ConnAction :=
  if u.connection = some ConnStatus.close then
    if u.statusCode = some DisconnectReason_loggedOut then (flag, acts)
    else (flag, acts ++ [ConnAction.scheduleReconnect RECONNECT_DELAY_MS])
  else (flag, acts)

/-- One `connection.update` handler invocation (lines 277-363): the pairing
block first — early `return` (skipping the close branch) when the phone
number is unset, otherwise set the flag, issue the request, and reset the
flag to `false` if the request failed — then the close/open branches.
Returns the new `pairingCodeRequested` flag and the emitted actions. -/
def handleConnectionUpdate (phoneNumber : Option String) (flag : Bool)
    (e : ConnEvent) : Bool × List ConnAction :=
  if shouldRequestPairing flag e then
    if envTruthy phoneNumber then
      match e.pairingOutcome with
      | PairingOutcome.ok _ =>
        closeOpenBranch e.update true [ConnAction.requestPairing (phoneNumber.getD "")]
      | PairingOutcome.err =>
        closeOpenBranch e.update false [ConnAction.requestPairing (phoneNumber.getD "")]
    else (flag, [])
  else closeOpenBranch e.update flag []

/-- Run one socket's event stream through the handler, starting from a given
flag value, collecting each event's emitted actions. -/
def runTrace (phoneNumber : Option String) :
    Bool → List ConnEvent → List (ConnEvent × List ConnAction)
  | _, [] => []
  | flag, e :: rest =>
    (e, (handleConnectionUpdate phoneNumber flag e).2) ::
      runTrace phoneNumber (handleConnectionUpdate phoneNumber flag e).1 rest

/-- The flag value after running one socket's event stream. -/
def runFlag (phoneNumber : Option String) : Bool → List ConnEvent → Bool
  | flag, [] => flag
  | flag, e :: rest =>
    runFlag phoneNumber (handleConnectionUpdate phoneNumber flag e).1 rest

/-- Count the elements of a list satisfying a Boolean predicate. -/
def countBy {α : Type} (p : α → Bool) : List α → Nat
  | [] => 0
  | a :: rest => (if p a then 1 else 0) + countBy p rest

/-- Is this action a pairing-code request? -/
def isPairingRequest : ConnAction → Bool
  | ConnAction.requestPairing _ => true
  | _ => false

/-- Is this action a scheduled reconnect? -/
def isReconnect : ConnAction → Bool
  | ConnAction.scheduleReconnect _ => true
  | _ => false

/-- Did `requestPairingCode` succeed? -/
def pairingSucceeded : PairingOutcome → Bool
  | PairingOutcome.ok _ => true
  | PairingOutcome.err => false

/-- Total number of pairing-code requests issued along a trace. -/
def countIssued : List (ConnEvent × List ConnAction) → Nat
  | [] => 0
  | (_, acts) :: rest => countBy isPairingRequest acts + countIssued rest

/-- Number of issued pairing-code requests that failed along a trace. -/
def countFailedIssued : List (ConnEvent × List ConnAction) → Nat
  | [] => 0
  | (e, acts) :: rest =>
    (if 0 < countBy isPairingRequest acts ∧ e.pairingOutcome = PairingOutcome.err
     then 1 else 0) + countFailedIssued rest

/-! ## Startup (`connection.js`, lines 40-53, 103-114, 252)

The configuration surface read from the environment, the `GCP_PROJECT_ID`
guard, and the fresh per-socket pairing flag. -/

/-- The environment variables the connection module reads (lines 40-53). -/
structure Config where
  gcpProjectId : Option String
  secretName : Option String
  phoneNumber : Option String
deriving DecidableEq

/-- The default secret name (line 46). -/
def SECRET_NAME_DEFAULT : String := "whatsapp-baileys-session"

/-- `process.env.SECRET_NAME || 'whatsapp-baileys-session'` (line 46). -/
def effectiveSecretName (cfg : Config) : String :=
  match cfg.secretName with
  | none => SECRET_NAME_DEFAULT
  | some s => if s = "" then SECRET_NAME_DEFAULT else s

/-- Errors escaping `connectToWhatsApp`: the missing-project-id guard
(lines 105-109) or an auth-state initialization failure. -/
inductive StartupError where
  | missingProjectId
  | auth (e : AuthError)
deriving DecidableEq

/-- The observable initial state of the socket `connectToWhatsApp` builds:
the per-socket `pairingCodeRequested` flag (fresh `false`, line 252) and the
auth state handed to `makeWASocket`. -/
structure SocketModel (C V : Type) where
  pairingCodeRequested : Bool
  authCreds : C
  authKeys : KeyStore V
deriving DecidableEq

/-- `connectToWhatsApp` entry sequence (lines 103-368): throw when
`GCP_PROJECT_ID` is unset (or empty); otherwise initialize the auth state
from the store — propagating its failures — and build a fresh socket whose
pairing flag is `false`.  No other configuration value is validated at
startup (`SECRET_NAME` is defaulted; `PHONE_NUMBER` is only consulted inside
the handler's pairing block). -/
def connectToWhatsApp {C V : Type} (blank : C)
    (reviveBlob : String → Option (C × Option (KeyStore V)))
    (cfg : Config) (w : World) : Except StartupError (SocketModel C V) :=
  if envTruthy cfg.gcpProjectId = false then Except.error StartupError.missingProjectId
  else
    match useSecretManagerAuthState blank reviveBlob w with
    | (Except.error e, _) => Except.error (StartupError.auth e)
    | (Except.ok st, _) => Except.ok ⟨false, st.creds, st.keys⟩

/-! ## In-flight saves and arrival order at the store
(`secretManagerAuthState.js`, lines 74-82 and 239-249)

When a debounce timer fires, the callback invokes
`fn(...args).catch(...)` — a fire-and-forget promise.  Nothing in the code
awaits a previous save before the next timer can fire, so several
`addSecretVersion` requests can be in flight at once and the network decides
the order in which they reach the store.  We embed this as a command
sequence: `issue b` (a timer fires and dispatches the save of blob `b` —
issues are numbered in dispatch order) and `complete i` (the network
delivers in-flight request `i` to the store).  A `complete` of a request not
in flight marks the schedule invalid. -/

/-- Command of the save-network interleaving model. -/
inductive NetCmd (B : Type) where
  | issue (blob : B)
  | complete (id : Nat)
deriving DecidableEq

/-- State of the save-network model: the next request number, the requests in
flight, the pairs delivered to the store in arrival order, and whether an
invalid `complete` occurred. -/
structure NetState (B : Type) where
  nextId : Nat
  inFlight : List (Nat × B)
  received : List (Nat × B)
  invalid : Bool
deriving DecidableEq

/-- Look up an in-flight request by number. -/
def findInFlight {B : Type} : List (Nat × B) → Nat → Option B
  | [], _ => none
  | (j, b) :: rest, i => if j = i then some b else findInFlight rest i

/-- Remove an in-flight request by number. -/
def removeInFlight {B : Type} : List (Nat × B) → Nat → List (Nat × B)
  | [], _ => []
  | (j, b) :: rest, i => if j = i then rest else (j, b) :: removeInFlight rest i

/-- One step of the save-network model. -/
def netStep {B : Type} (s : NetState B) : NetCmd B → NetState B
  | NetCmd.issue b =>
    { s with nextId := s.nextId + 1, inFlight := s.inFlight ++ [(s.nextId, b)] }
  | NetCmd.complete i =>
    match findInFlight s.inFlight i with
    | some b =>
      { s with inFlight := removeInFlight s.inFlight i,
               received := s.received ++ [(i, b)] }
    | none => { s with invalid := true }

/-- Run a command schedule from the initial state. -/
def netRun {B : Type} (cmds : List (NetCmd B)) : NetState B :=
  cmds.foldl netStep ⟨0, [], [], false⟩

/-- The blobs issued by a schedule, in dispatch (request) order. -/
def issuesOf {B : Type} : List (NetCmd B) → List B
  | [] => []
  | NetCmd.issue b :: rest => b :: issuesOf rest
  | NetCmd.complete _ :: rest => issuesOf rest

/-- The serial schedule: each save completes before the next timer fires
(requests numbered from `n`). -/
def serialFrom {B : Type} : Nat → List B → List (NetCmd B)
  | _, [] => []
  | n, b :: rest => NetCmd.issue b :: NetCmd.complete n :: serialFrom (n + 1) rest

/-- The serial schedule for a list of blobs, numbered from 0. -/
def serialSchedule {B : Type} (bs : List B) : List (NetCmd B) :=
  serialFrom 0 bs

/-! ## Theorems -/

theorem lookup_insertKey {V : Type} (ks : KeyStore V) (a k : String) (v : V) :
    lookupKey (insertKey ks a v) k = if a = k then some v else lookupKey ks k := by
  induction ks with
  | nil => simp [insertKey, lookupKey]
  | cons p rest ih =>
    obtain ⟨b, w⟩ := p
    by_cases hba : b = a
    · subst hba
      by_cases hk : b = k <;> simp [insertKey, lookupKey, hk]
    · by_cases hk : b = k
      · subst hk
        have : ¬ a = b := fun h => hba h.symm
        simp [insertKey, lookupKey, hba, this]
      · simp [insertKey, lookupKey, hba, hk, ih]

theorem lookup_eraseKey {V : Type} (ks : KeyStore V) (a k : String) :
    lookupKey (eraseKey ks a) k = if a = k then none else lookupKey ks k := by
  induction ks with
  | nil => simp [eraseKey, lookupKey]
  | cons p rest ih =>
    obtain ⟨b, w⟩ := p
    by_cases hba : b = a
    · subst hba
      by_cases hk : b = k
      · subst hk
        simp [eraseKey, lookupKey, ih]
      · simp [eraseKey, lookupKey, hk, ih]
    · by_cases hk : b = k
      · subst hk
        have : ¬ a = b := fun h => hba h.symm
        simp [eraseKey, lookupKey, hba, this, lookupKey]
      · simp [eraseKey, lookupKey, hba, hk, ih]

theorem lookup_applyOp {V : Type} (ks : KeyStore V) (op : String × Option V) (k : String) :
    lookupKey (applyOp ks op) k = if op.1 = k then op.2 else lookupKey ks k := by
  obtain ⟨a, v⟩ := op
  cases v with
  | some v => simpa [applyOp] using lookup_insertKey ks a k v
  | none => simpa [applyOp] using lookup_eraseKey ks a k

theorem lookup_foldl_applyOp {V : Type} (ops : List (String × Option V)) :
    ∀ (ks : KeyStore V) (k : String),
      lookupKey (ops.foldl applyOp ks) k = (lastWrite k ops).getD (lookupKey ks k) := by
  induction ops with
  | nil => intro ks k; simp [lastWrite]
  | cons op rest ih =>
    intro ks k
    show lookupKey (rest.foldl applyOp (applyOp ks op)) k = _
    rw [ih]
    cases h : lastWrite k rest with
    | some r => simp [lastWrite, h]
    | none =>
      rw [lookup_applyOp]
      by_cases hk : op.1 = k <;> simp [lastWrite, h, hk]

theorem keysSet_eq_foldl_ops {V : Type} (data : SetData V) :
    ∀ ks : KeyStore V, keysSet ks data = (setOps data).foldl applyOp ks := by
  induction data with
  | nil => intro ks; simp [keysSet, setOps]
  | cons c rest ih =>
    intro ks
    show List.foldl _ (c.2.foldl _ ks) rest = _
    rw [setOps, List.foldl_append]
    have hentry : ∀ (entries : List (String × Option V)) (ks : KeyStore V),
        entries.foldl (fun ks iv =>
          match iv.2 with
          | some v => insertKey ks (c.1 ++ "-" ++ iv.1) v
          | none => eraseKey ks (c.1 ++ "-" ++ iv.1)) ks =
        (entryOps c.1 entries).foldl applyOp ks := by
      intro entries
      induction entries with
      | nil => intro ks; simp [entryOps]
      | cons iv restE ihE =>
        intro ks
        cases hv : iv.2 with
        | some v => simp [entryOps, List.foldl_cons, hv, applyOp, ihE]
        | none => simp [entryOps, List.foldl_cons, hv, applyOp, ihE]
    rw [← hentry c.2 ks]
    exact ih _

theorem foldl_keysSet_eq {V : Type} (sets : List (SetData V)) :
    ∀ ks : KeyStore V, sets.foldl keysSet ks = (allSetOps sets).foldl applyOp ks := by
  induction sets with
  | nil => intro ks; simp [allSetOps]
  | cons d rest ih =>
    intro ks
    rw [List.foldl_cons, allSetOps, List.foldl_append, ih, keysSet_eq_foldl_ops]

theorem lookup_keysGet {V : Type} (keys : KeyStore V) (type : String)
    (ids : List String) (id : String) :
    lookupKey (keysGet keys type ids) id =
      if id ∈ ids then lookupKey keys (type ++ "-" ++ id) else none := by
  have gen : ∀ (rest : List String) (acc : KeyStore V),
      lookupKey (rest.foldl (fun acc i =>
        match lookupKey keys (type ++ "-" ++ i) with
        | some v => insertKey acc i v
        | none => acc) acc) id =
      if id ∈ rest ∧ (lookupKey keys (type ++ "-" ++ id)).isSome then
        lookupKey keys (type ++ "-" ++ id)
      else lookupKey acc id := by
    intro rest
    induction rest with
    | nil => intro acc; simp
    | cons j restL ih =>
      intro acc
      rw [List.foldl_cons, ih]
      by_cases hmem : id ∈ restL ∧ (lookupKey keys (type ++ "-" ++ id)).isSome
      · simp only [hmem, if_pos]
        have : id ∈ j :: restL ∧ (lookupKey keys (type ++ "-" ++ id)).isSome :=
          ⟨List.mem_cons_of_mem j hmem.1, hmem.2⟩
        simp [this]
      · simp only [hmem, if_neg, not_false_iff]
        by_cases hj : j = id
        · subst hj
          cases hv : lookupKey keys (type ++ "-" ++ j) with
          | some v =>
            have hs : (lookupKey keys (type ++ "-" ++ j)).isSome := by simp [hv]
            have hcond : j ∈ j :: restL ∧ (lookupKey keys (type ++ "-" ++ j)).isSome :=
              ⟨List.mem_cons_self j restL, hs⟩
            simp [hv, hcond, lookup_insertKey]
          | none =>
            have hns : ¬ (j ∈ j :: restL ∧ (lookupKey keys (type ++ "-" ++ j)).isSome) := by
              simp [hv]
            simp [hv, hns]
        · have hcond : (id ∈ j :: restL ∧ (lookupKey keys (type ++ "-" ++ id)).isSome) ↔
              (id ∈ restL ∧ (lookupKey keys (type ++ "-" ++ id)).isSome) := by
            constructor
            · rintro ⟨hm, hs⟩
              rcases List.mem_cons.1 hm with h | h
              · exact absurd h.symm hj
              · exact ⟨h, hs⟩
            · rintro ⟨hm, hs⟩; exact ⟨List.mem_cons_of_mem j hm, hs⟩
          rw [if_neg (by rw [hcond]; exact hmem)]
          cases hv : lookupKey keys (type ++ "-" ++ j) with
          | some v => simp [lookup_insertKey, hj]
          | none => rfl
  show lookupKey (keysGet keys type ids) id = _
  unfold keysGet
  rw [gen ids []]
  by_cases hmem : id ∈ ids
  · cases hv : lookupKey keys (type ++ "-" ++ id) with
    | some v => simp [hmem, hv]
    | none => simp [hmem, hv, lookupKey]
  · simp [hmem, lookupKey]

theorem runCalls_burst {V : Type} (calls : List (Nat × SetData V)) :
    ∀ (k : KeyStore V) (w : List (KeyStore V)) (t : Nat),
      withinBurst t calls = true →
      runCalls ⟨k, some (t + DEBOUNCE_DELAY_MS), w⟩ calls =
        ⟨calls.foldl (fun ks c => keysSet ks c.2) k,
         some (lastCallTime t calls + DEBOUNCE_DELAY_MS), w⟩ := by
  induction calls with
  | nil => intro k w t _; simp [runCalls, lastCallTime]
  | cons c rest ih =>
    intro k w t h
    simp only [withinBurst, Bool.and_eq_true, decide_eq_true_eq] at h
    have step : stepSetCall ⟨k, some (t + DEBOUNCE_DELAY_MS), w⟩ c =
        ⟨keysSet k c.2, some (c.1 + DEBOUNCE_DELAY_MS), w⟩ := by
      have hnot : ¬ (t + DEBOUNCE_DELAY_MS ≤ c.1) := by omega
      simp [stepSetCall, fireDueTimer, hnot]
    calc runCalls ⟨k, some (t + DEBOUNCE_DELAY_MS), w⟩ (c :: rest)
        = runCalls (stepSetCall ⟨k, some (t + DEBOUNCE_DELAY_MS), w⟩ c) rest := rfl
      _ = runCalls ⟨keysSet k c.2, some (c.1 + DEBOUNCE_DELAY_MS), w⟩ rest := by rw [step]
      _ = ⟨(c :: rest).foldl (fun ks c => keysSet ks c.2) k,
           some (lastCallTime t (c :: rest) + DEBOUNCE_DELAY_MS), w⟩ := by
          rw [ih _ w c.1 h.2]; rfl

/-- C1: for every burst of `keys.set` calls in which each call lands within
the debounce window (`DEBOUNCE_DELAY_MS` = 3 s) of the previous one, exactly
one blob is dispatched to the remote store once the burst goes quiescent, and
it is the full keys state as of the last call of the burst; no intermediate
blob of the burst is ever dispatched. -/
theorem debounced_persist_coalesces_burst {V : Type} (k0 : KeyStore V)
    (c0 : Nat × SetData V) (rest : List (Nat × SetData V))
    (h : withinBurst c0.1 rest = true) :
    flushPending (runCalls ⟨k0, none, []⟩ (c0 :: rest)) =
      [(c0 :: rest).foldl (fun ks c => keysSet ks c.2) k0] := by
  have step0 : stepSetCall ⟨k0, none, []⟩ c0 =
      ⟨keysSet k0 c0.2, some (c0.1 + DEBOUNCE_DELAY_MS), []⟩ := by
    simp [stepSetCall, fireDueTimer]
  have hrun : runCalls ⟨k0, none, []⟩ (c0 :: rest) =
      ⟨rest.foldl (fun ks c => keysSet ks c.2) (keysSet k0 c0.2),
       some (lastCallTime c0.1 rest + DEBOUNCE_DELAY_MS), []⟩ := by
    calc runCalls ⟨k0, none, []⟩ (c0 :: rest)
        = runCalls (stepSetCall ⟨k0, none, []⟩ c0) rest := rfl
      _ = runCalls ⟨keysSet k0 c0.2, some (c0.1 + DEBOUNCE_DELAY_MS), []⟩ rest := by
          rw [step0]
      _ = _ := runCalls_burst rest _ [] c0.1 h
  rw [hrun]
  simp [flushPending]

/-- Witness for C1: a concrete three-call burst (gaps 1000 ms and 1500 ms,
both inside the 3000 ms window) dispatches exactly one blob, the state after
the third call. -/
theorem debounced_persist_coalesces_burst_witness :
    withinBurst (0 : Nat)
      ([(1000, [("pre", [("2", some 2)])]), (2500, [("pre", [("1", none)])])] :
        List (Nat × SetData Nat)) = true ∧
    flushPending (runCalls ⟨([] : KeyStore Nat), none, []⟩
        ((0, [("pre", [("1", some 1)])]) ::
          [(1000, [("pre", [("2", some 2)])]), (2500, [("pre", [("1", none)])])])) =
      [((0, [("pre", [("1", some 1)])]) ::
          [(1000, [("pre", [("2", some 2)])]), (2500, [("pre", [("1", none)])])]).foldl
        (fun ks c => keysSet ks c.2) ([] : KeyStore Nat)] :=
  ⟨by decide, debounced_persist_coalesces_burst [] _ _ (by decide)⟩

/-- C2 (amended): after any history of `set` calls starting from an empty
mirror, `get(category, ids)` maps a requested `id` to `v` exactly when the
most recent write whose composite key equals `category ++ "-" ++ id` carried
the non-null value `v`; a requested id whose composite key was never written,
or most recently written with null, is absent from the result (not present as
null).  The mutation performed by `set` is synchronous, so it is visible to
any `get` issued after it (the `get` here reads the post-history mirror). -/
theorem keys_get_composite_characterization {V : Type} (sets : List (SetData V))
    (category id : String) (ids : List String) :
    lookupKey (keysGet (sets.foldl keysSet ([] : KeyStore V)) category ids) id =
      if id ∈ ids then
        (lastWrite (category ++ "-" ++ id) (allSetOps sets)).getD none
      else none := by
  rw [lookup_keysGet, foldl_keysSet_eq, lookup_foldl_applyOp]
  simp [lookupKey]

/-- C2 fails as literally stated (per `(category, id)` pairs): the only `set`
in this history names the pair `("pre", "key-1")`, yet a `get` for the
distinct pair `("pre-key", "1")` — never set — returns the value, because the
two pairs share the composite key `"pre-key-1"`. -/
theorem keys_get_pair_semantics_cex :
    ("pre", "key-1") ≠ ("pre-key", "1") ∧
    lookupKey
      (keysGet (([([("pre", [("key-1", some 0)])] : SetData Nat)]).foldl keysSet [])
        "pre-key" ["1"]) "1" = some 0 := by
  exact ⟨by decide, by decide⟩

/-- C10: the mirror indexes entries by the concatenation
`category ++ "-" ++ id`, which is not injective on pairs: for the distinct
pairs `("pre", "key-1")` and `("pre-key", "1")`, a `set` on the first is
observed by a `get` on the second, and a null `set` on the second deletes the
entry written under the first. -/
theorem composite_key_not_injective :
    ∃ c1 i1 c2 i2 : String, (c1, i1) ≠ (c2, i2) ∧
      (∀ v : Nat,
        lookupKey (keysGet (keysSet ([] : KeyStore Nat) [(c1, [(i1, some v)])]) c2 [i2])
          i2 = some v) ∧
      (∀ v : Nat,
        keysGet (keysSet (keysSet ([] : KeyStore Nat) [(c1, [(i1, some v)])])
          [(c2, [(i2, none)])]) c1 [i1] = []) := by
  refine ⟨"pre", "key-1", "pre-key", "1", by decide, fun v => ?_, fun v => ?_⟩
  · rfl
  · rfl

/-- C3: when the store reports NOT_FOUND — either because the secret is
absent (or has no versions) or because the access call itself fails with the
NOT_FOUND status — `getSecretValue` returns the `null` sentinel without
throwing, and auth-state initialization yields the blank-credential
constructor's value and an empty key mapping, also without throwing; any
other failure code propagates to the caller from both. -/
theorem load_not_found_yields_blank_state {C V : Type} (blank : C)
    (reviveBlob : String → Option (C × Option (KeyStore V))) :
    (getSecretValue ⟨SecretState.absent, []⟩ =
        (Except.ok none, ⟨SecretState.absent, []⟩) ∧
      useSecretManagerAuthState blank reviveBlob ⟨SecretState.absent, []⟩ =
        (Except.ok ⟨blank, []⟩, ⟨SecretState.absent, []⟩)) ∧
    (∀ s : SecretState,
      getSecretValue ⟨s, [some GRPC_NOT_FOUND]⟩ = (Except.ok none, ⟨s, []⟩) ∧
      useSecretManagerAuthState blank reviveBlob ⟨s, [some GRPC_NOT_FOUND]⟩ =
        (Except.ok ⟨blank, []⟩, ⟨s, []⟩)) ∧
    (∀ (s : SecretState) (c : Nat), c ≠ GRPC_NOT_FOUND →
      getSecretValue ⟨s, [some c]⟩ = (Except.error c, ⟨s, []⟩) ∧
      useSecretManagerAuthState blank reviveBlob ⟨s, [some c]⟩ =
        (Except.error (AuthError.grpc c), ⟨s, []⟩)) := by
  refine ⟨⟨rfl, rfl⟩, fun s => ⟨rfl, rfl⟩, fun s c hc => ⟨?_, ?_⟩⟩
  · simp [getSecretValue, accessSecretVersion, nextFault, hc]
  · simp [useSecretManagerAuthState, getSecretValue, accessSecretVersion, nextFault, hc]

/-- Witness for C3: a fresh (absent) secret initializes blank state, and a
permission-style failure (code 7) propagates. -/
theorem load_not_found_yields_blank_state_witness :
    useSecretManagerAuthState (0 : Nat)
        (fun _ => (none : Option (Nat × Option (KeyStore Nat)))) ⟨SecretState.absent, []⟩ =
      (Except.ok ⟨0, []⟩, ⟨SecretState.absent, []⟩) ∧
    (7 : Nat) ≠ GRPC_NOT_FOUND ∧
    getSecretValue ⟨SecretState.absent, [some 7]⟩ =
      (Except.error 7, ⟨SecretState.absent, []⟩) :=
  ⟨(load_not_found_yields_blank_state (0 : Nat)
      (fun _ => (none : Option (Nat × Option (KeyStore Nat))))).1.2,
   by decide,
   ((load_not_found_yields_blank_state (0 : Nat)
      (fun _ => (none : Option (Nat × Option (KeyStore Nat))))).2.2
        SecretState.absent 7 (by decide)).1⟩

/-- C6: `saveSecretValue` adds a new version when the secret exists; a
non-NOT_FOUND failure of the first write propagates with no retry; when the
first write fails because the secret does not exist, the secret is created
with the automatic replication policy and the version write is retried
exactly once; a failure of the create, or of that single retry, propagates to
the caller with no further attempt. -/
theorem saveSecretValue_create_and_single_retry (payload : String) :
    (∀ vs : List String,
      saveSecretValue ⟨SecretState.present vs, []⟩ payload =
        (Except.ok (), ⟨SecretState.present (vs ++ [payload]), []⟩,
         [StoreOp.addVersion payload])) ∧
    (∀ (s : SecretState) (c : Nat), c ≠ GRPC_NOT_FOUND →
      saveSecretValue ⟨s, [some c]⟩ payload =
        (Except.error c, ⟨s, []⟩, [StoreOp.addVersion payload])) ∧
    (saveSecretValue ⟨SecretState.absent, []⟩ payload =
      (Except.ok (), ⟨SecretState.present [payload], []⟩,
       [StoreOp.addVersion payload, StoreOp.create Replication.automatic,
        StoreOp.addVersion payload])) ∧
    (∀ c : Nat,
      saveSecretValue ⟨SecretState.absent, [none, some c]⟩ payload =
        (Except.error c, ⟨SecretState.absent, []⟩,
         [StoreOp.addVersion payload, StoreOp.create Replication.automatic])) ∧
    (∀ c : Nat,
      saveSecretValue ⟨SecretState.absent, [none, none, some c]⟩ payload =
        (Except.error c, ⟨SecretState.present [], []⟩,
         [StoreOp.addVersion payload, StoreOp.create Replication.automatic,
          StoreOp.addVersion payload])) := by
  refine ⟨fun vs => rfl, fun s c hc => ?_, rfl, fun c => rfl, fun c => rfl⟩
  simp [saveSecretValue, addSecretVersion, nextFault, hc]

/-- Witness for C6: a plain add on an existing secret appends one version,
and a permission-style failure (code 7) of the first write propagates with no
retry. -/
theorem saveSecretValue_create_and_single_retry_witness :
    saveSecretValue ⟨SecretState.present ["old"], []⟩ "new" =
      (Except.ok (), ⟨SecretState.present ["old", "new"], []⟩,
       [StoreOp.addVersion "new"]) ∧
    saveSecretValue ⟨SecretState.absent, [some 7]⟩ "new" =
      (Except.error 7, ⟨SecretState.absent, []⟩, [StoreOp.addVersion "new"]) :=
  ⟨by simpa using (saveSecretValue_create_and_single_retry "new").1 ["old"],
   (saveSecretValue_create_and_single_retry "new").2.1 SecretState.absent 7 (by decide)⟩

theorem lastVersion_append_singleton (l : List String) (a : String) :
    lastVersion (l ++ [a]) = some a := by
  induction l with
  | nil => rfl
  | cons b rest ih =>
    cases rest with
    | nil => rfl
    | cons c rest2 => exact ih

/-- C7: saving the session blob (serialize, write as a new secret version —
creating the secret first when absent) and then loading the latest version
(read, parse) yields the original `{ creds, keys }` again, for any
serializer/parser pair that invert each other on this blob (the source pair,
`JSON.stringify`/`JSON.parse` with `BufferJSON.replacer`/`reviver`, is
external library code and appears as the parameters). -/
theorem save_then_load_roundtrip {C V : Type} (blank : C)
    (serializeBlob : C → KeyStore V → String)
    (reviveBlob : String → Option (C × Option (KeyStore V)))
    (creds : C) (keys : KeyStore V) (s : SecretState)
    (hinv : reviveBlob (serializeBlob creds keys) = some (creds, some keys))
    (hne : serializeBlob creds keys ≠ "") :
    (persistState serializeBlob creds keys ⟨s, []⟩).1 = Except.ok () ∧
    (useSecretManagerAuthState blank reviveBlob
        (persistState serializeBlob creds keys ⟨s, []⟩).2.1).1 =
      Except.ok ⟨creds, keys⟩ := by
  have hload : ∀ vs : List String,
      (useSecretManagerAuthState blank reviveBlob
        ⟨SecretState.present (vs ++ [serializeBlob creds keys]), []⟩).1 =
        Except.ok (⟨creds, keys⟩ : AuthInit C V) := by
    intro vs
    simp [useSecretManagerAuthState, getSecretValue, accessSecretVersion, nextFault,
      lastVersion_append_singleton, hinv, hne]
  cases s with
  | present vs =>
    have hsave : persistState serializeBlob creds keys ⟨SecretState.present vs, []⟩ =
        (Except.ok (), ⟨SecretState.present (vs ++ [serializeBlob creds keys]), []⟩,
         [StoreOp.addVersion (serializeBlob creds keys)]) := rfl
    rw [hsave]
    exact ⟨rfl, hload vs⟩
  | absent =>
    have hsave : persistState serializeBlob creds keys ⟨SecretState.absent, []⟩ =
        (Except.ok (), ⟨SecretState.present [serializeBlob creds keys], []⟩,
         [StoreOp.addVersion (serializeBlob creds keys),
          StoreOp.create Replication.automatic,
          StoreOp.addVersion (serializeBlob creds keys)]) := rfl
    rw [hsave]
    exact ⟨rfl, by simpa using hload []⟩

/-- Witness for C7 with a concrete inverse serializer/parser pair, a concrete
blob and an initially absent secret. -/
theorem save_then_load_roundtrip_witness :
    (persistState (fun (_ : Nat) (_ : KeyStore Nat) => "x") 7 [("k", 3)]
        ⟨SecretState.absent, []⟩).1 = Except.ok () ∧
    (useSecretManagerAuthState 0 (fun _ => some (7, some [("k", 3)]))
        (persistState (fun (_ : Nat) (_ : KeyStore Nat) => "x") 7 [("k", 3)]
          ⟨SecretState.absent, []⟩).2.1).1 = Except.ok ⟨7, [("k", 3)]⟩ :=
  save_then_load_roundtrip 0 (fun _ _ => "x") (fun _ => some (7, some [("k", 3)]))
    7 [("k", 3)] SecretState.absent rfl (by decide)

theorem countBy_append {α : Type} (p : α → Bool) (l1 l2 : List α) :
    countBy p (l1 ++ l2) = countBy p l1 + countBy p l2 := by
  induction l1 with
  | nil => simp [countBy]
  | cons a rest ih => simp [countBy, ih]; omega

theorem closeOpenBranch_flag (u : ConnUpdate) (f : Bool) (acts : List ConnAction) :
    (closeOpenBranch u f acts).1 = f := by
  unfold closeOpenBranch
  split
  · split <;> rfl
  · rfl

theorem countBy_pairing_closeOpenBranch (u : ConnUpdate) (f : Bool)
    (acts : List ConnAction) :
    countBy isPairingRequest (closeOpenBranch u f acts).2 =
      countBy isPairingRequest acts := by
  unfold closeOpenBranch
  split
  · split
    · rfl
    · simp [countBy_append, countBy, isPairingRequest]
  · rfl

theorem countBy_reconnect_closeOpenBranch (u : ConnUpdate) (f : Bool)
    (acts : List ConnAction) :
    countBy isReconnect (closeOpenBranch u f acts).2 =
      countBy isReconnect acts +
        (if u.connection = some ConnStatus.close ∧
            u.statusCode ≠ some DisconnectReason_loggedOut then 1 else 0) := by
  unfold closeOpenBranch
  by_cases h1 : u.connection = some ConnStatus.close
  · by_cases h2 : u.statusCode = some DisconnectReason_loggedOut
    · simp [h1, h2]
    · simp [h1, h2, countBy_append, countBy, isReconnect]
  · simp [h1]

theorem reconnect_mem_closeOpenBranch (u : ConnUpdate) (f : Bool)
    (acts : List ConnAction) (h1 : u.connection = some ConnStatus.close)
    (h2 : u.statusCode ≠ some DisconnectReason_loggedOut) :
    ConnAction.scheduleReconnect RECONNECT_DELAY_MS ∈ (closeOpenBranch u f acts).2 := by
  simp [closeOpenBranch, h1, h2]

theorem handle_count_pairing (phone : Option String) (flag : Bool) (e : ConnEvent) :
    countBy isPairingRequest (handleConnectionUpdate phone flag e).2 =
      if shouldRequestPairing flag e && envTruthy phone then 1 else 0 := by
  unfold handleConnectionUpdate
  cases h1 : shouldRequestPairing flag e
  · simp [h1, countBy_pairing_closeOpenBranch, countBy]
  · cases h2 : envTruthy phone
    · simp [h1, h2, countBy]
    · cases ho : e.pairingOutcome <;>
        simp [h1, h2, ho, countBy_pairing_closeOpenBranch, countBy, isPairingRequest]

theorem handle_flag_eq (phone : Option String) (flag : Bool) (e : ConnEvent) :
    (handleConnectionUpdate phone flag e).1 =
      if shouldRequestPairing flag e && envTruthy phone
      then pairingSucceeded e.pairingOutcome else flag := by
  unfold handleConnectionUpdate
  cases h1 : shouldRequestPairing flag e
  · simp [h1, closeOpenBranch_flag]
  · cases h2 : envTruthy phone
    · simp [h1, h2]
    · cases ho : e.pairingOutcome <;>
        simp [h1, h2, ho, closeOpenBranch_flag, pairingSucceeded]

theorem shouldRequest_flag_false {flag : Bool} {e : ConnEvent}
    (h : shouldRequestPairing flag e = true) : flag = false := by
  cases flag with
  | false => rfl
  | true => simp [shouldRequestPairing] at h

theorem issued_failed_invariant (phone : Option String) (events : List ConnEvent) :
    ∀ flag : Bool,
      countIssued (runTrace phone flag events) + (if flag then 1 else 0) =
        countFailedIssued (runTrace phone flag events) +
          (if runFlag phone flag events then 1 else 0) := by
  induction events with
  | nil => intro flag; simp [runTrace, runFlag, countIssued, countFailedIssued]
  | cons e rest ih =>
    intro flag
    simp only [runTrace, runFlag, countIssued, countFailedIssued,
      handle_count_pairing, handle_flag_eq]
    cases hb : (shouldRequestPairing flag e && envTruthy phone)
    · have hrec := ih flag
      simp [hb]
      omega
    · have hfl : flag = false :=
        shouldRequest_flag_false (((Bool.and_eq_true _ _).mp hb).1)
      subst hfl
      cases ho : e.pairingOutcome with
      | ok c =>
        have hrec := ih true
        simp at hrec
        simp [hb, ho, pairingSucceeded]
        omega
      | err =>
        have hrec := ih false
        simp at hrec
        simp [hb, ho, pairingSucceeded]
        omega

/-- C4: for every socket and every sequence of `connection.update` events,
the number of pairing-code requests issued over the socket's lifetime is at
most the number of failed requests plus one — in particular at most one when
no request fails, however many `connecting`/QR events precede `open` — the
guard being the per-socket `pairingCodeRequested` flag: a failed request
resets it (so a later connection event may issue a new request) and while it
is set no event issues a request. -/
theorem pairing_requested_at_most_once_per_socket (phone : Option String)
    (events : List ConnEvent) :
    countIssued (runTrace phone false events) ≤
      countFailedIssued (runTrace phone false events) + 1 ∧
    (countFailedIssued (runTrace phone false events) = 0 →
      countIssued (runTrace phone false events) ≤ 1) ∧
    (∀ (flag : Bool) (e : ConnEvent),
      shouldRequestPairing flag e = true → envTruthy phone = true →
      e.pairingOutcome = PairingOutcome.err →
      (handleConnectionUpdate phone flag e).1 = false) ∧
    (∀ e : ConnEvent,
      countBy isPairingRequest (handleConnectionUpdate phone true e).2 = 0) := by
  have hinv := issued_failed_invariant phone events false
  refine ⟨?_, ?_, ?_, ?_⟩
  · cases hr : runFlag phone false events <;> simp [hr] at hinv <;> omega
  · intro h0
    cases hr : runFlag phone false events <;> simp [hr] at hinv <;> omega
  · intro flag e h1 h2 ho
    rw [handle_flag_eq]
    simp [h1, h2, ho, pairingSucceeded]
  · intro e
    rw [handle_count_pairing]
    have h1 : shouldRequestPairing true e = false := by simp [shouldRequestPairing]
    simp [h1]

/-- Witness for C4: two consecutive `connecting` events with unregistered
credentials and succeeding requests issue exactly one request in total, and a
concrete failing request resets the flag. -/
theorem pairing_requested_at_most_once_per_socket_witness :
    countFailedIssued (runTrace (some "5511999999999") false
      [⟨⟨some ConnStatus.connecting, none, none⟩, false, PairingOutcome.ok "AB"⟩,
       ⟨⟨some ConnStatus.connecting, none, none⟩, false, PairingOutcome.ok "AB"⟩]) = 0 ∧
    countIssued (runTrace (some "5511999999999") false
      [⟨⟨some ConnStatus.connecting, none, none⟩, false, PairingOutcome.ok "AB"⟩,
       ⟨⟨some ConnStatus.connecting, none, none⟩, false, PairingOutcome.ok "AB"⟩]) ≤ 1 ∧
    (handleConnectionUpdate (some "5511999999999") false
      ⟨⟨some ConnStatus.connecting, none, none⟩, false, PairingOutcome.err⟩).1 = false :=
  ⟨by decide,
   (pairing_requested_at_most_once_per_socket (some "5511999999999")
      [⟨⟨some ConnStatus.connecting, none, none⟩, false, PairingOutcome.ok "AB"⟩,
       ⟨⟨some ConnStatus.connecting, none, none⟩, false, PairingOutcome.ok "AB"⟩]).2.1
     (by decide),
   (pairing_requested_at_most_once_per_socket (some "5511999999999") []).2.2.1 false
     ⟨⟨some ConnStatus.connecting, none, none⟩, false, PairingOutcome.err⟩
     (by decide) (by decide) rfl⟩

/-- C5 fails as stated: this `close` event has a non-logout (absent)
disconnect cause, yet no reconnect is scheduled — the event also carries a QR
hint while credentials are unregistered and `PHONE_NUMBER` is unset, so the
handler takes the missing-phone early `return` and never reaches the close
branch. -/
theorem close_without_reconnect_cex :
    (some ConnStatus.close = some ConnStatus.close ∧
      (none : Option Nat) ≠ some DisconnectReason_loggedOut) ∧
    handleConnectionUpdate none false
      ⟨⟨some ConnStatus.close, some "QR", none⟩, false, PairingOutcome.err⟩ =
      (false, []) := by
  exact ⟨⟨rfl, by decide⟩, rfl⟩

/-- C5 (amended): on a `close` event, a logged-out disconnect cause never
schedules a reconnect; any other (or absent) cause schedules exactly one
reconnect after the fixed 5000 ms delay — unless the same event also enters
the pairing block (connecting/QR hint, unregistered, flag unset) while
`PHONE_NUMBER` is unset, in which case the handler returns early and
schedules nothing — and a scheduled reconnect re-runs `connectToWhatsApp`,
whose new socket always starts with a fresh `false` pairing flag. -/
theorem close_reconnect_policy {C V : Type} (blank : C)
    (reviveBlob : String → Option (C × Option (KeyStore V)))
    (phone : Option String) (flag : Bool) (e : ConnEvent)
    (hclose : e.update.connection = some ConnStatus.close) :
    RECONNECT_DELAY_MS = 5000 ∧
    (e.update.statusCode = some DisconnectReason_loggedOut →
      countBy isReconnect (handleConnectionUpdate phone flag e).2 = 0) ∧
    (e.update.statusCode ≠ some DisconnectReason_loggedOut →
      (shouldRequestPairing flag e = true → envTruthy phone = false →
        (handleConnectionUpdate phone flag e).2 = []) ∧
      ((shouldRequestPairing flag e = true → envTruthy phone = true) →
        countBy isReconnect (handleConnectionUpdate phone flag e).2 = 1 ∧
        ConnAction.scheduleReconnect RECONNECT_DELAY_MS ∈
          (handleConnectionUpdate phone flag e).2)) ∧
    (∀ (cfg : Config) (w : World) (sock : SocketModel C V),
      connectToWhatsApp blank reviveBlob cfg w = Except.ok sock →
      sock.pairingCodeRequested = false) := by
  refine ⟨rfl, ?_, ?_, ?_⟩
  · intro hlo
    unfold handleConnectionUpdate
    cases h1 : shouldRequestPairing flag e
    · simp [countBy_reconnect_closeOpenBranch, hlo, countBy]
    · cases h2 : envTruthy phone
      · simp [countBy]
      · cases ho : e.pairingOutcome <;>
          simp [ho, countBy_reconnect_closeOpenBranch, hlo, countBy, isReconnect]
  · intro hnl
    refine ⟨fun h1 h2 => by simp [handleConnectionUpdate, h1, h2], fun himp => ?_⟩
    have key : ∀ (f : Bool) (base : List ConnAction),
        countBy isReconnect base = 0 →
        countBy isReconnect (closeOpenBranch e.update f base).2 = 1 ∧
        ConnAction.scheduleReconnect RECONNECT_DELAY_MS ∈
          (closeOpenBranch e.update f base).2 := by
      intro f base hbase
      refine ⟨?_, reconnect_mem_closeOpenBranch e.update f base hclose hnl⟩
      rw [countBy_reconnect_closeOpenBranch, hbase]
      simp [hclose, hnl]
    cases h1 : shouldRequestPairing flag e
    · have heq : handleConnectionUpdate phone flag e = closeOpenBranch e.update flag [] := by
        simp [handleConnectionUpdate, h1]
      rw [heq]
      exact key flag [] rfl
    · have h2 : envTruthy phone = true := himp h1
      cases ho : e.pairingOutcome with
      | ok c =>
        have heq : handleConnectionUpdate phone flag e =
            closeOpenBranch e.update true
              [ConnAction.requestPairing (phone.getD "")] := by
          simp [handleConnectionUpdate, h1, h2, ho]
        rw [heq]
        exact key true _ rfl
      | err =>
        have heq : handleConnectionUpdate phone flag e =
            closeOpenBranch e.update false
              [ConnAction.requestPairing (phone.getD "")] := by
          simp [handleConnectionUpdate, h1, h2, ho]
        rw [heq]
        exact key false _ rfl
  · intro cfg w sock h
    unfold connectToWhatsApp at h
    by_cases hp : envTruthy cfg.gcpProjectId = false
    · simp [hp] at h
    · rcases h1 : useSecretManagerAuthState blank reviveBlob w with ⟨r, w1⟩
      rw [if_neg hp, h1] at h
      cases r with
      | error e1 => simp at h
      | ok st =>
        simp only [Except.ok.injEq] at h
        rw [← h]

/-- Witness for C5 at a concrete close event with a non-logout cause (408)
and registered credentials: exactly one 5-second reconnect is scheduled. -/
theorem close_reconnect_policy_witness :
    countBy isReconnect (handleConnectionUpdate (some "5511999999999") false
      ⟨⟨some ConnStatus.close, none, some 408⟩, true, PairingOutcome.err⟩).2 = 1 ∧
    ConnAction.scheduleReconnect RECONNECT_DELAY_MS ∈
      (handleConnectionUpdate (some "5511999999999") false
        ⟨⟨some ConnStatus.close, none, some 408⟩, true, PairingOutcome.err⟩).2 :=
  (((close_reconnect_policy (0 : Nat)
      (fun _ => (none : Option (Nat × Option (KeyStore Nat))))
      (some "5511999999999") false
      ⟨⟨some ConnStatus.close, none, some 408⟩, true, PairingOutcome.err⟩
      rfl).2.2.1 (by decide)).2 (by decide))

/-- C8 fails as stated: with `PHONE_NUMBER` and `SECRET_NAME` both absent —
two of the three claimed-required values — but `GCP_PROJECT_ID` set, startup
succeeds: `connectToWhatsApp` returns a socket instead of failing fatally
(the secret name is defaulted and the phone number is only consulted, and
merely logged about, inside the handler's pairing block). -/
theorem startup_missing_phone_ok_cex :
    connectToWhatsApp (0 : Nat)
      (fun _ => (none : Option (Nat × Option (KeyStore Nat))))
      ⟨some "proj", none, none⟩ ⟨SecretState.absent, []⟩ =
      Except.ok ⟨false, 0, []⟩ := rfl

/-- C8 (amended): only a missing (or empty) `GCP_PROJECT_ID` makes startup
fail fatally, the error propagating to the caller of `connectToWhatsApp`; a
missing `SECRET_NAME` is replaced by the default name; a missing
`PHONE_NUMBER` never fails startup — the pairing block logs an error and
returns without issuing a request or any other action. -/
theorem startup_config_failure_policy {C V : Type} (blank : C)
    (reviveBlob : String → Option (C × Option (KeyStore V)))
    (cfg : Config) (w : World) :
    (envTruthy cfg.gcpProjectId = false →
      connectToWhatsApp blank reviveBlob cfg w =
        Except.error StartupError.missingProjectId) ∧
    (cfg.secretName = none → effectiveSecretName cfg = SECRET_NAME_DEFAULT) ∧
    (∀ (flag : Bool) (e : ConnEvent), envTruthy cfg.phoneNumber = false →
      shouldRequestPairing flag e = true →
      handleConnectionUpdate cfg.phoneNumber flag e = (flag, [])) := by
  refine ⟨fun h => ?_, fun h => ?_, fun flag e hp h1 => ?_⟩
  · simp [connectToWhatsApp, h]
  · simp [effectiveSecretName, h]
  · simp [handleConnectionUpdate, h1, hp]

/-- Witness for C8: startup with `GCP_PROJECT_ID` unset fails with the
missing-project-id error, and an unset `SECRET_NAME` resolves to the
default. -/
theorem startup_config_failure_policy_witness :
    connectToWhatsApp (0 : Nat)
      (fun _ => (none : Option (Nat × Option (KeyStore Nat))))
      ⟨none, some "s", some "55"⟩ ⟨SecretState.absent, []⟩ =
      Except.error StartupError.missingProjectId ∧
    effectiveSecretName ⟨some "p", none, some "55"⟩ = SECRET_NAME_DEFAULT :=
  ⟨(startup_config_failure_policy (0 : Nat)
      (fun _ => (none : Option (Nat × Option (KeyStore Nat))))
      ⟨none, some "s", some "55"⟩ ⟨SecretState.absent, []⟩).1 rfl,
   (startup_config_failure_policy (0 : Nat)
      (fun _ => (none : Option (Nat × Option (KeyStore Nat))))
      ⟨some "p", none, some "55"⟩ ⟨SecretState.absent, []⟩).2.1 rfl⟩

theorem issuesOf_serialFrom {B : Type} (bs : List B) :
    ∀ n : Nat, issuesOf (serialFrom n bs) = bs := by
  induction bs with
  | nil => intro n; rfl
  | cons b rest ih => intro n; simp [serialFrom, issuesOf, ih]

theorem serial_run_aux {B : Type} (bs : List B) :
    ∀ (n : Nat) (recv : List (Nat × B)),
      (List.foldl netStep ⟨n, [], recv, false⟩ (serialFrom n bs)).received.map
          Prod.snd = recv.map Prod.snd ++ bs ∧
      (List.foldl netStep ⟨n, [], recv, false⟩ (serialFrom n bs)).invalid = false := by
  induction bs with
  | nil => intro n recv; simp [serialFrom]
  | cons b rest ih =>
    intro n recv
    have hstep : List.foldl netStep ⟨n, [], recv, false⟩ (serialFrom n (b :: rest)) =
        List.foldl netStep ⟨n + 1, [], recv ++ [(n, b)], false⟩
          (serialFrom (n + 1) rest) := by
      show List.foldl netStep
          (netStep (netStep ⟨n, [], recv, false⟩ (NetCmd.issue b)) (NetCmd.complete n))
          (serialFrom (n + 1) rest) = _
      congr 1
      simp [netStep, findInFlight, removeInFlight]
    rw [hstep]
    rcases ih (n + 1) (recv ++ [(n, b)]) with ⟨h1, h2⟩
    refine ⟨?_, h2⟩
    rw [h1]
    simp

/-- C9 (amended): saves are dispatched to the store in the order they were
most recently requested (the single debounce timer slot totally orders the
dispatches), and whenever each in-flight save completes before the next
timer fires — the serial schedule — the store receives the blobs in exactly
that request order.  The code does not serialize overlapping in-flight
saves, so only dispatch order, not arrival order, is guaranteed in general
(see the counterexample). -/
theorem serial_saves_arrive_in_request_order {B : Type} (bs : List B) :
    issuesOf (serialSchedule bs) = bs ∧
    (netRun (serialSchedule bs)).received.map Prod.snd = bs ∧
    (netRun (serialSchedule bs)).invalid = false := by
  refine ⟨issuesOf_serialFrom bs 0, ?_, (serial_run_aux bs 0 []).2⟩
  have h := (serial_run_aux bs 0 []).1
  simpa [netRun, serialSchedule] using h

/-- C9 fails as stated: a valid interleaving in which two debounce-triggered
saves are both in flight (blob 10 requested first, then blob 20) and the
network delivers the second before the first — the store receives
`[20, 10]`, out of the request order `[10, 20]`.  Nothing in the
fire-and-forget save path (`fn(...args).catch(...)`, no awaiting of the
previous save) excludes this interleaving. -/
theorem overlapping_saves_reorder_cex :
    issuesOf [NetCmd.issue 10, NetCmd.issue 20, NetCmd.complete 1,
        NetCmd.complete 0] = [10, 20] ∧
    (netRun [NetCmd.issue 10, NetCmd.issue 20, NetCmd.complete 1,
        NetCmd.complete 0]).received.map Prod.snd = [20, 10] ∧
    (netRun [NetCmd.issue 10, NetCmd.issue 20, NetCmd.complete 1,
        NetCmd.complete 0]).invalid = false := by
  exact ⟨rfl, rfl, rfl⟩

end WhatsappServer
